import Mathlib

/-!
Shallow embedding of `src/app.py` (SchedulerTelegramBot): a Flask Telegram
bot that parses `/schedule <text>, <n>, <unit>` commands, delegates to one
of the delay-service endpoints listed in `SCHEDULER_URL`, and relays
callbacks from the delay service back to the originating chat.

Strings are modelled as `List Char`.  Side effects (Telegram sends and
delegation POSTs) are tracked in an explicit `Trace`; the outcomes of the
external calls are supplied by an `Env` oracle.  Python exceptions that
escape a handler are modelled with `Except PyErr`.
-/

namespace SchedulerBot

/-- ASCII/latin whitespace test used by the embedding of Python `str.strip`. -/
def isWS (c : Char) : Bool := c.isWhitespace

/-- Embedding of Python `str.strip()`: drop whitespace from both ends. -/
def strip (l : List Char) : List Char :=
  ((l.dropWhile isWS).reverse.dropWhile isWS).reverse

/-- Embedding of Python `str.split(",")`: split on every comma, keeping
empty fields; the result is always non-empty. -/
def splitComma : List Char → List (List Char)
  | [] => [[]]
  | c :: cs =>
    match splitComma cs with
    | [] => [[]]
    | f :: rest => if c = ',' then [] :: f :: rest else (c :: f) :: rest

/-- Numeric value of a digit character. -/
def digitVal (c : Char) : Nat := c.toNat - 48

/-- Parse a non-empty all-digit string as a natural number. -/
def parseDigits (l : List Char) : Option Nat :=
  if l ≠ [] ∧ l.all Char.isDigit then
    some (l.foldl (fun a c => a * 10 + digitVal c) 0)
  else none

/-- Embedding of Python `int(s)` on decimal literals: optional sign then
digits; anything else raises `ValueError` (modelled as `none`). -/
def parseInt (l : List Char) : Option Int :=
  match l with
  | '-' :: ds => (parseDigits ds).map fun n => -(n : Int)
  | '+' :: ds => (parseDigits ds).map fun n => (n : Int)
  | ds => (parseDigits ds).map fun n => (n : Int)

/-- Python exceptions that can escape the functions under study. -/
inductive PyErr
  | indexError
  | valueError (lit : List Char)
  | nameError
  deriving DecidableEq

deriving instance DecidableEq for Except

/-- `str(e)` for the exceptions interpolated into chat messages. -/
def errText : PyErr → List Char
  | .indexError => "list index out of range".data
  | .valueError lit => "invalid literal for int() with base 10: ".data ++ lit
  | .nameError => "name chat_id is not defined".data

/-- Record of the externally visible effects of one request: Telegram
`send_message` calls and delegation `requests.post` calls, in order. -/
structure Trace where
  sends : List (Int × List Char)
  posts : List (List Char × Int × List Char)
  deriving DecidableEq

def emptyTrace : Trace := ⟨[], []⟩

/-- Environment: the configured `SCHEDULER_URL` and oracles giving the
outcome of the k-th send / k-th post, plus `str(e)` for a failing post. -/
structure Env where
  schedulerUrl : List Char
  sendOk : Nat → Bool
  postOk : Nat → Bool
  postErr : Nat → List Char

/-- Embedding of `send_message(chat_id, text)` (lines 18-33): performs the
HTTP call (recorded in the trace) and returns `True` on success, `False`
on any exception — it never raises. -/
def send_message (env : Env) (chat_id : Int) (text : List Char) (tr : Trace) :
    Bool × Trace :=
  (env.sendOk tr.sends.length, ⟨tr.sends ++ [(chat_id, text)], tr.posts⟩)

/-- Embedding of the `requests.post(url, json=data)` delegation call inside
`scheduleMessage` (line 95): records the call; `false` means the post (or
`raise_for_status`) raised. -/
def postScheduler (env : Env) (url : List Char) (chat_id : Int)
    (text : List Char) (tr : Trace) : Bool × Trace :=
  (env.postOk tr.posts.length, ⟨tr.sends, tr.posts ++ [(url, chat_id, text)]⟩)

def startCmdText : List Char := "/start".data
def formatCmdText : List Char := "/format".data
def scheduleTok : List Char := "/schedule".data
def wakeTok : List Char := "/wake".data

/-- Embedding of Python `text.startswith(pat)`. -/
def startsWithTok : List Char → List Char → Bool
  | [], _ => true
  | _ :: _, [] => false
  | a :: pas, b :: bs => a = b && startsWithTok pas bs

/-- `get_start_message()` (lines 35-48). -/
def startMessage : List Char :=
  ("🤖 Welcome to the Scheduler Bot!\n\nUse /schedule to set reminders:\nExample: /schedule Remember to call mom, 5, hour\n\nFormat: /schedule <message> <quantity> <unit>\n\nWhere:\n  <message>  - The task or reminder you want to set\n  <quantity> - The number (e.g., 5)\n  <unit>     - The time unit (\x27hour\x27 or \x27minute\x27)\n\nExample 1: /schedule Drink water, 1, hour\nExample 2: /schedule Take a break, 30, minute\n").data

/-- `get_wakeup_message()` (lines 50-56). -/
def wakeMessage : List Char :=
  ("⏰ I\x27m back online and ready to help you stay on schedule!\nUse /schedule to set a reminder.\nNeed help? Just type /help to get started!").data

/-- `get_default_message()` (lines 58-68). -/
def defaultMessage : List Char :=
  ("🤔 I didn\x27t understand that command.\n/wake - Wake bot up\n/start - Show welcome message\n/help - Show this help message\n/schedule - Set reminders\n/format -  Get the format of the schedule function!\n💡 Tip: Send any other message for general info!").data

/-- `get_format_message()` (lines 70-74). -/
def formatMessage : List Char :=
  ("/schedule Remember to run, 5, hour").data

/-- The range-error chat message of line 87. -/
def rangeMessage : List Char :=
  ("Please select a duration from 1 to 5 hours").data

/-- The acknowledgment `botReplyMessage` of line 98, interpolating `hours`
and `text.strip()`. -/
def ackMessage (hours : Int) (text : List Char) : List Char :=
  ("✅ Your message has been scheduled and will be delivered in ").data ++
  (toString hours).data ++
  (" hour(s)! ⏰\n\n📨 Message: \"").data ++
  strip text ++
  ("\"\n\nThank you for using the scheduler bot!").data

/-- The delegation-failure chat message of line 103, interpolating `str(e)`. -/
def schedulerErrMessage (e : List Char) : List Char :=
  ("Error sending message to scheduler: ").data ++ e

/-- The webhook exception-branch chat message of line 145. -/
def webhookErrMessage (e : List Char) : List Char :=
  ("Webhook error: ").data ++ e

/-- Outcome of the duration-router fragment, lines 84-88: in-range lookup,
the explicit out-of-range branch, or an `IndexError` from
`schedulerArr[hours - 1]` when the table is shorter than the bound. -/
inductive RouteResult
  | target (url : List Char)
  | outOfRange
  | indexErr
  deriving DecidableEq

/-- Embedding of lines 84-88: the bounds `1 <= hours <= 5` are hardcoded;
within them the 1-indexed table entry is looked up (raising `IndexError`
when absent), otherwise the out-of-range branch is taken. -/
def resolveRoute (hours : Int) (table : List (List Char)) : RouteResult :=
  if 1 ≤ hours ∧ hours ≤ 5 then
    match table[(hours - 1).toNat]? with
    | some url => .target url
    | none => .indexErr
  else .outOfRange

/-- Embedding of `scheduleMessage(message, chat_id)` (lines 76-104).
`IndexError` from `parts[1]`, `ValueError` from `int(...)` and
`IndexError` from `schedulerArr[hours - 1]` escape as `.error`; all other
paths return `True` after exactly one `send_message`. -/
def scheduleMessage (env : Env) (message : List Char) (chat_id : Int)
    (tr : Trace) : Except PyErr Bool × Trace :=
  let parts := splitComma message
  match parts[1]? with
  | none => (.error .indexError, tr)
  | some part1 =>
    match parseInt (strip part1) with
    | none => (.error (.valueError (strip part1)), tr)
    | some hours =>
      let command := parts.headD []
      let text := command.drop 10
      let schedulerArr := splitComma env.schedulerUrl
      match resolveRoute hours schedulerArr with
      | .outOfRange =>
        let (_, tr1) := send_message env chat_id rangeMessage tr
        (.ok true, tr1)
      | .indexErr => (.error .indexError, tr)
      | .target url =>
        let k := tr.posts.length
        let (ok, tr1) := postScheduler env url chat_id text tr
        if ok then
          let (_, tr2) := send_message env chat_id (ackMessage hours text) tr1
          (.ok true, tr2)
        else
          let (_, tr2) :=
            send_message env chat_id (schedulerErrMessage (env.postErr k)) tr1
          (.ok true, tr2)

/-- A `flask.Response(status=...)` value returned by a handler. -/
inductive Resp
  | s200
  | s500
  deriving DecidableEq

/-- Shape of an inbound webhook POST as the handler discriminates it:
unparsable JSON, JSON without "message", a message whose chat id lookup
raises `KeyError`, a message without "text", or a full chat message. -/
inductive WebhookInput
  | badJson
  | noMessage
  | noChat
  | noText (chat_id : Int)
  | msg (chat_id : Int) (text : List Char)

/-- `send_message` followed by the 200/500 choice of lines 136-139. -/
def replyAndStatus (env : Env) (chat_id : Int) (msgText : List Char)
    (tr : Trace) : Except PyErr (Option Resp) × Trace :=
  let (ok, tr1) := send_message env chat_id msgText tr
  (.ok (some (if ok then .s200 else .s500)), tr1)

/-- Embedding of the `/webhook` handler (lines 107-147).  `.ok none` models
the handler returning Python `None` (Flask then produces a 500);
`.error` models an exception escaping the handler (also a 500).  On
unparsable JSON or a failed chat-id lookup the except branch itself
raises `NameError` because `chat_id` is unbound. -/
def webhook (env : Env) (input : WebhookInput) (tr : Trace) :
    Except PyErr (Option Resp) × Trace :=
  match input with
  | .badJson => (.error .nameError, tr)
  | .noMessage => (.ok (some .s200), tr)
  | .noChat => (.error .nameError, tr)
  | .noText _ => (.ok (some .s200), tr)
  | .msg chat_id text =>
    if text = startCmdText then replyAndStatus env chat_id startMessage tr
    else if text = formatCmdText then replyAndStatus env chat_id formatMessage tr
    else if startsWithTok scheduleTok text = true then
      match scheduleMessage env text chat_id tr with
      | (.ok b, tr1) => (.ok (some (if b then .s200 else .s500)), tr1)
      | (.error e, tr1) =>
        let (ok, tr2) :=
          send_message env chat_id (webhookErrMessage (errText e)) tr1
        if ok then (.ok (some .s200), tr2) else (.ok none, tr2)
    else if startsWithTok wakeTok text = true then
      replyAndStatus env chat_id wakeMessage tr
    else replyAndStatus env chat_id defaultMessage tr

/-- Shape of an inbound callback POST as the handler discriminates it:
unparsable JSON, missing "text" key, missing "chat_id" key, or a full
payload.  `json_data["text"]` is read before `json_data["chat_id"]`, so in
every malformed case `chat_id` is unbound when the except branch runs. -/
inductive CallbackInput
  | badJson
  | noTextField
  | noChatId (text : List Char)
  | payload (chat_id : Int) (text : List Char)

/-- Embedding of the `/callback` handler (lines 154-169).  On a malformed
payload the `KeyError` is caught but the except branch references the
unbound `chat_id` and raises `NameError`; on a well-formed payload the
single send decides between 200 and falling off the function (`None`). -/
def callback (env : Env) (input : CallbackInput) (tr : Trace) :
    Except PyErr (Option Resp) × Trace :=
  match input with
  | .badJson => (.error .nameError, tr)
  | .noTextField => (.error .nameError, tr)
  | .noChatId _ => (.error .nameError, tr)
  | .payload chat_id text =>
    let (ok, tr1) := send_message env chat_id text tr
    if ok then (.ok (some .s200), tr1) else (.ok none, tr1)

/-- HTTP status the platform observes: Flask turns both an escaped
exception and a handler returning `None` into a 500 response. -/
def flaskStatus : Except PyErr (Option Resp) → Nat
  | .ok (some .s200) => 200
  | .ok (some .s500) => 500
  | .ok none => 500
  | .error _ => 500

/-- Modelled from the spec: §4.2 describes the task text as what follows
the literal `/schedule` token in the first field after stripping the
token and leading whitespace, then trimmed.  Used only to compare the
spec wording to the `command[10:]` extraction of line 82. -/
def specTaskText (field0 : List Char) : List Char :=
  strip ((field0.drop 9).dropWhile isWS)

/-- A concrete environment: five endpoints, every external call succeeds. -/
def envA : Env :=
  { schedulerUrl := "a,b,c,d,e".data
    sendOk := fun _ => true
    postOk := fun _ => true
    postErr := fun _ => [] }

/-- A concrete environment in which every Telegram send fails. -/
def envFailSend : Env :=
  { schedulerUrl := "a,b,c,d,e".data
    sendOk := fun _ => false
    postOk := fun _ => true
    postErr := fun _ => [] }

/-- The endpoint table of `envA`, as the code derives it (length 5). -/
def tableFive : List (List Char) := splitComma envA.schedulerUrl

/-- A six-endpoint table, as derived from a six-URL `SCHEDULER_URL`. -/
def tableSix : List (List Char) := splitComma "a,b,c,d,e,f".data

/-- `sub` occurs contiguously inside `l`. -/
def containsSub (sub l : List Char) : Prop := ∃ a b, l = a ++ sub ++ b

/-!  ### Helper lemmas  -/

theorem splitComma_ne_nil : ∀ l : List Char, splitComma l ≠ []
  | [] => by simp [splitComma]
  | c :: cs => by
    simp only [splitComma]
    cases h : splitComma cs with
    | nil => simp
    | cons f rest => by_cases hc : c = ',' <;> simp [hc]

theorem splitComma_append {a : List Char} (b : List Char) (ha : ',' ∉ a) :
    splitComma (a ++ ',' :: b) = a :: splitComma b := by
  induction a with
  | nil =>
    simp only [List.nil_append, splitComma]
    cases h : splitComma b with
    | nil => exact absurd h (splitComma_ne_nil b)
    | cons f rest => simp [← h]
  | cons c cs ih =>
    have hc : c ≠ ',' := fun h => ha (h ▸ List.mem_cons_self c cs)
    have hcs : ',' ∉ cs := fun h => ha (List.mem_cons_of_mem c h)
    simp only [List.cons_append, splitComma, List.append_eq]
    rw [ih hcs]
    simp [hc]

theorem strip_dropWhile (l : List Char) :
    strip (l.dropWhile isWS) = strip l := by
  simp [strip, List.dropWhile_idempotent]

theorem ackMessage_head (h : Int) (t : List Char) :
    (ackMessage h t).head? = some '✅' := rfl

theorem ne_ackMessage_of_head (l : List Char) (c : Char)
    (hc : l.head? = some c) (hne : c ≠ '✅') (h : Int) (t : List Char) :
    l ≠ ackMessage h t := by
  intro heq
  apply hne
  have h2 : (ackMessage h t).head? = some c := heq ▸ hc
  rw [ackMessage_head] at h2
  exact (Option.some.inj h2).symm

/-- The `/webhook` handler on a schedule-prefixed text runs the dispatcher
and wraps its outcome per lines 127-128 and 143-147. -/
theorem webhook_schedule (env : Env) (cid : Int) (m : List Char) (tr : Trace)
    (hm : startsWithTok scheduleTok m = true) :
    webhook env (.msg cid m) tr =
      match scheduleMessage env m cid tr with
      | (.ok b, tr1) => (.ok (some (if b then .s200 else .s500)), tr1)
      | (.error e, tr1) =>
        let (ok, tr2) :=
          send_message env cid (webhookErrMessage (errText e)) tr1
        if ok then (.ok (some .s200), tr2) else (.ok none, tr2) := by
  have h1 : m ≠ startCmdText := by rintro rfl; exact absurd hm (by decide)
  have h2 : m ≠ formatCmdText := by rintro rfl; exact absurd hm (by decide)
  simp only [webhook, if_neg h1, if_neg h2, if_pos hm]

/-- Exhaustive description of a dispatcher run from an empty trace: it
either raises with no effects, or completes with `True` after exactly one
chat message — the range error (no post), the acknowledgment (one post),
or the delegation-failure detail (one post). -/
theorem scheduleMessage_cases (env : Env) (m : List Char) (cid : Int) :
    (∃ e, scheduleMessage env m cid emptyTrace = (.error e, emptyTrace)) ∨
    scheduleMessage env m cid emptyTrace =
      (.ok true, ⟨[(cid, rangeMessage)], []⟩) ∨
    (∃ url hours text,
      env.postOk 0 = true ∧
      scheduleMessage env m cid emptyTrace =
        (.ok true, ⟨[(cid, ackMessage hours text)], [(url, cid, text)]⟩)) ∨
    (∃ url text,
      env.postOk 0 = false ∧
      scheduleMessage env m cid emptyTrace =
        (.ok true,
         ⟨[(cid, schedulerErrMessage (env.postErr 0))], [(url, cid, text)]⟩)) := by
  cases hget : (splitComma m)[1]? with
  | none => exact Or.inl ⟨.indexError, by simp [scheduleMessage, hget]⟩
  | some p1 =>
    cases hparse : parseInt (strip p1) with
    | none =>
      exact Or.inl ⟨.valueError (strip p1),
        by simp [scheduleMessage, hget, hparse]⟩
    | some hours =>
      cases hroute : resolveRoute hours (splitComma env.schedulerUrl) with
      | outOfRange =>
        refine Or.inr (Or.inl ?_)
        simp [scheduleMessage, hget, hparse, hroute, send_message, emptyTrace]
      | indexErr =>
        exact Or.inl ⟨.indexError,
          by simp [scheduleMessage, hget, hparse, hroute]⟩
      | target url =>
        cases hpost : env.postOk 0 with
        | true =>
          refine Or.inr (Or.inr (Or.inl
            ⟨url, hours, ((splitComma m).headD []).drop 10, rfl, ?_⟩))
          simp [scheduleMessage, hget, hparse, hroute, postScheduler,
            send_message, emptyTrace, hpost]
        | false =>
          refine Or.inr (Or.inr (Or.inr
            ⟨url, ((splitComma m).headD []).drop 10, rfl, ?_⟩))
          simp [scheduleMessage, hget, hparse, hroute, postScheduler,
            send_message, emptyTrace, hpost]

/-- When the schedule body parses and the table lookup does not raise, the
dispatcher always returns `True` (lines 88, 100 and 104). -/
theorem scheduleMessage_ok (env : Env) (m : List Char) (cid : Int)
    (tr : Trace) (p1 : List Char) (hours : Int)
    (hget : (splitComma m)[1]? = some p1)
    (hparse : parseInt (strip p1) = some hours)
    (hroute : resolveRoute hours (splitComma env.schedulerUrl) ≠ .indexErr) :
    (scheduleMessage env m cid tr).1 = .ok true := by
  simp only [scheduleMessage, hget, hparse]
  cases hr : resolveRoute hours (splitComma env.schedulerUrl) with
  | outOfRange => simp [send_message]
  | indexErr => exact absurd hr hroute
  | target url =>
    cases hp : env.postOk tr.posts.length <;>
      simp [postScheduler, send_message, hp]

/-- Webhook wrapper when the dispatcher completes normally. -/
theorem webhook_schedule_ok (env : Env) (cid : Int) (m : List Char)
    (tr : Trace) (b : Bool) (tr1 : Trace)
    (hm : startsWithTok scheduleTok m = true)
    (hs : scheduleMessage env m cid tr = (.ok b, tr1)) :
    webhook env (.msg cid m) tr =
      (.ok (some (if b then .s200 else .s500)), tr1) := by
  rw [webhook_schedule env cid m tr hm, hs]

/-- Webhook wrapper when the dispatcher raises: the except branch of
lines 143-147 sends the webhook-error text and returns 200 on a
successful send, `None` otherwise. -/
theorem webhook_schedule_error (env : Env) (cid : Int) (m : List Char)
    (tr : Trace) (e : PyErr) (tr1 : Trace)
    (hm : startsWithTok scheduleTok m = true)
    (hs : scheduleMessage env m cid tr = (.error e, tr1)) :
    webhook env (.msg cid m) tr =
      ((if env.sendOk tr1.sends.length = true then Except.ok (some Resp.s200)
          else Except.ok none),
       ⟨tr1.sends ++ [(cid, webhookErrMessage (errText e))], tr1.posts⟩) := by
  rw [webhook_schedule env cid m tr hm, hs]
  cases h : env.sendOk tr1.sends.length <;> simp [send_message, h]

/-!  ### Claim theorems  -/

/-- C1 (counterexample): the claim asserts the valid range is
`[1, length(table)]` for every table length.  With a six-entry table,
`durationUnits = 6` lies inside `[1, 6]`, yet the hardcoded
`1 <= hours <= 5` bound of line 84 takes the out-of-range branch instead
of resolving the sixth entry. -/
theorem C1_counterexample :
    (1 ≤ 6 ∧ 6 ≤ tableSix.length) ∧
    resolveRoute 6 tableSix = RouteResult.outOfRange ∧
    resolveRoute 6 tableSix ≠ RouteResult.target ("f".data) := by decide

/-- C1 (amended): the router accepts exactly `durationUnits` in the
hardcoded range `[1, 5]`, independent of table length: within it, the
1-indexed table entry is resolved when present and an `IndexError` is
raised when the table is shorter; every value outside `[1, 5]` takes the
out-of-range branch, even when the table is longer. -/
theorem C1_router_amended (table : List (List Char)) (h : Int) :
    (∀ u, 1 ≤ h → h ≤ 5 → table[(h - 1).toNat]? = some u →
        resolveRoute h table = RouteResult.target u) ∧
    (¬(1 ≤ h ∧ h ≤ 5) → resolveRoute h table = RouteResult.outOfRange) ∧
    (1 ≤ h → h ≤ 5 → table[(h - 1).toNat]? = none →
        resolveRoute h table = RouteResult.indexErr) := by
  refine ⟨fun u h1 h5 hu => ?_, fun hn => ?_, fun h1 h5 hn => ?_⟩ <;>
    simp only [resolveRoute]
  · rw [if_pos ⟨h1, h5⟩, hu]
  · rw [if_neg hn]
  · rw [if_pos ⟨h1, h5⟩, hn]

/-- Witness for C1 (amended) at concrete inputs. -/
theorem C1_router_amended_witness :
    resolveRoute 3 tableFive = RouteResult.target ("c".data) ∧
    resolveRoute 6 tableFive = RouteResult.outOfRange ∧
    resolveRoute 3 (splitComma ("a".data)) = RouteResult.indexErr :=
  ⟨(C1_router_amended tableFive 3).1 ("c".data)
      (by decide) (by decide) (by decide),
   (C1_router_amended tableFive 6).2.1 (by decide),
   (C1_router_amended (splitComma ("a".data)) 3).2.2
      (by decide) (by decide) (by decide)⟩

/-- C2 (counterexample): `"/schedule Buy milk, 3"` splits into only two
comma-separated fields, so the claim requires MalformedSchedule handling
(a format-help message, no delegation); the code instead parses `3` from
the second field, issues the delegation call, and acknowledges with the
success message. -/
theorem C2_counterexample :
    (splitComma ("/schedule Buy milk, 3".data)).length = 2 ∧
    (scheduleMessage envA ("/schedule Buy milk, 3".data) 42
        emptyTrace).2.posts.length = 1 ∧
    (scheduleMessage envA ("/schedule Buy milk, 3".data) 42
        emptyTrace).2.sends = [(42, ackMessage 3 ("Buy milk".data))] := by
  decide

/-- C2 (amended): a schedule command with fewer than two comma-separated
fields raises `IndexError` out of the dispatcher, and one whose second
field does not parse as an integer raises `ValueError`; in both cases the
webhook exception branch sends a single generic webhook-error message
(not format help) to the originating chat and, when that send succeeds,
the inbound call is acknowledged with 200.  A command with exactly two
fields and an integer second field is dispatched as a normal schedule
request. -/
theorem C2_malformed_amended :
    (∀ (env : Env) (cid : Int) (m : List Char),
      startsWithTok scheduleTok m = true →
      env.sendOk 0 = true →
      ((splitComma m)[1]? = none →
        webhook env (.msg cid m) emptyTrace =
          (.ok (some .s200),
           ⟨[(cid, webhookErrMessage (errText .indexError))], []⟩)) ∧
      (∀ p1, (splitComma m)[1]? = some p1 → parseInt (strip p1) = none →
        webhook env (.msg cid m) emptyTrace =
          (.ok (some .s200),
           ⟨[(cid, webhookErrMessage (errText (.valueError (strip p1))))],
            []⟩))) ∧
    (scheduleMessage envA ("/schedule Buy milk, 3".data) 42 emptyTrace).1 =
      .ok true := by
  constructor
  · intro env cid m hm hsend
    constructor
    · intro hget
      rw [webhook_schedule env cid m emptyTrace hm]
      have hs : scheduleMessage env m cid emptyTrace =
          (.error .indexError, emptyTrace) := by
        simp [scheduleMessage, hget]
      rw [hs]
      simp [send_message, emptyTrace, hsend]
    · intro p1 hget hparse
      rw [webhook_schedule env cid m emptyTrace hm]
      have hs : scheduleMessage env m cid emptyTrace =
          (.error (.valueError (strip p1)), emptyTrace) := by
        simp [scheduleMessage, hget, hparse]
      rw [hs]
      simp [send_message, emptyTrace, hsend]
  · decide

/-- Witness for C2 (amended): the spec's own example of a comma-free
schedule body, with every send succeeding. -/
theorem C2_malformed_amended_witness :
    webhook envA (.msg 42 ("/schedule missing fields".data)) emptyTrace =
      (.ok (some .s200),
       ⟨[(42, webhookErrMessage (errText .indexError))], []⟩) :=
  (C2_malformed_amended.1 envA 42 ("/schedule missing fields".data)
      (by decide) (by decide)).1 (by decide)

/-- C3: every schedule command reaching the dispatcher results in exactly
one chat message to the originating chatID across all terminal paths
(counting the exception paths completed by the webhook wrapper); when the
delegation call fails the single message is the error-detail message and
never the success acknowledgment; and the inbound call always receives a
definite transport status (200 or 500). -/
theorem C3_single_send (env : Env) (cid : Int) (m : List Char)
    (hm : startsWithTok scheduleTok m = true) :
    (webhook env (.msg cid m) emptyTrace).2.sends.length = 1 ∧
    (∀ p ∈ (webhook env (.msg cid m) emptyTrace).2.sends, p.1 = cid) ∧
    (env.postOk 0 = false →
      ∀ p ∈ (webhook env (.msg cid m) emptyTrace).2.sends,
        ∀ (h : Int) (t : List Char), p.2 ≠ ackMessage h t) ∧
    ((webhook env (.msg cid m) emptyTrace).2.posts ≠ [] →
      env.postOk 0 = false →
      (webhook env (.msg cid m) emptyTrace).2.sends =
        [(cid, schedulerErrMessage (env.postErr 0))]) ∧
    (flaskStatus (webhook env (.msg cid m) emptyTrace).1 = 200 ∨
      flaskStatus (webhook env (.msg cid m) emptyTrace).1 = 500) := by
  rcases scheduleMessage_cases env m cid with
    ⟨e, hs⟩ | hs | ⟨url, hours, text, hpost, hs⟩ | ⟨url, text, hpost, hs⟩
  · rw [webhook_schedule_error env cid m emptyTrace e emptyTrace hm hs]
    refine ⟨rfl, ?_, ?_, ?_, ?_⟩
    · intro p hp
      simp [emptyTrace] at hp
      rw [hp]
    · intro _ p hp h t
      simp [emptyTrace] at hp
      rw [hp]
      exact ne_ackMessage_of_head (webhookErrMessage (errText e)) 'W' rfl (by decide) h t
    · intro hposts
      exact absurd rfl hposts
    · cases hok : env.sendOk emptyTrace.sends.length <;>
        simp [hok, flaskStatus]
  · rw [webhook_schedule_ok env cid m emptyTrace true _ hm hs]
    refine ⟨rfl, ?_, ?_, ?_, Or.inl rfl⟩
    · intro p hp
      simp at hp
      rw [hp]
    · intro _ p hp h t
      simp at hp
      rw [hp]
      exact ne_ackMessage_of_head rangeMessage 'P' rfl (by decide) h t
    · intro hposts
      exact absurd rfl hposts
  · rw [webhook_schedule_ok env cid m emptyTrace true _ hm hs]
    refine ⟨rfl, ?_, ?_, ?_, Or.inl rfl⟩
    · intro p hp
      simp at hp
      rw [hp]
    · intro hfalse
      rw [hpost] at hfalse
      simp at hfalse
    · intro _ hfalse
      rw [hpost] at hfalse
      simp at hfalse
  · rw [webhook_schedule_ok env cid m emptyTrace true _ hm hs]
    refine ⟨rfl, ?_, ?_, ?_, Or.inl rfl⟩
    · intro p hp
      simp at hp
      rw [hp]
    · intro _ p hp h t
      simp at hp
      rw [hp]
      exact ne_ackMessage_of_head (schedulerErrMessage (env.postErr 0)) 'E' rfl (by decide) h t
    · intro _ _
      rfl

/-- Witness for C3 at a concrete valid schedule command. -/
theorem C3_single_send_witness :
    (webhook envA (.msg 42 ("/schedule Buy milk, 3, hour".data))
        emptyTrace).2.sends.length = 1 :=
  (C3_single_send envA 42 ("/schedule Buy milk, 3, hour".data) (by decide)).1

/-- C4 (counterexample): on a valid schedule command whose acknowledgment
send fails (a SendFailure), the webhook still answers 200, not a
transport-level failure — `scheduleMessage` returns `True` regardless of
send outcomes (lines 88, 100, 104). -/
theorem C4_counterexample :
    envFailSend.sendOk 0 = false ∧
    (webhook envFailSend (.msg 42 ("/schedule Buy milk, 3, hour".data))
        emptyTrace).2.sends.length = 1 ∧
    flaskStatus (webhook envFailSend
        (.msg 42 ("/schedule Buy milk, 3, hour".data)) emptyTrace).1 = 200 := by
  decide

/-- C4 (amended): SendFailure surfaces as a 500 for the direct webhook
reply paths (e.g. `/start`) and for a well-formed callback;
MalformedWebhook and MalformedCallback always surface as 500 (via the
`NameError` raised in the except branches); but on the schedule-dispatch
path any completion of the dispatcher — whatever the send outcomes —
is answered 200. -/
theorem C4_transport_amended :
    (∀ (env : Env) (cid : Int), env.sendOk 0 = false →
      flaskStatus (webhook env (.msg cid startCmdText) emptyTrace).1 = 500) ∧
    (∀ env : Env, flaskStatus (webhook env .badJson emptyTrace).1 = 500) ∧
    (∀ env : Env, flaskStatus (webhook env .noChat emptyTrace).1 = 500) ∧
    (∀ env : Env, flaskStatus (callback env .badJson emptyTrace).1 = 500) ∧
    (∀ env : Env,
      flaskStatus (callback env .noTextField emptyTrace).1 = 500) ∧
    (∀ (env : Env) (t : List Char),
      flaskStatus (callback env (.noChatId t) emptyTrace).1 = 500) ∧
    (∀ (env : Env) (cid : Int) (t : List Char), env.sendOk 0 = false →
      flaskStatus (callback env (.payload cid t) emptyTrace).1 = 500) ∧
    (∀ (env : Env) (cid : Int) (m p1 : List Char) (hours : Int),
      startsWithTok scheduleTok m = true →
      (splitComma m)[1]? = some p1 →
      parseInt (strip p1) = some hours →
      resolveRoute hours (splitComma env.schedulerUrl) ≠ .indexErr →
      flaskStatus (webhook env (.msg cid m) emptyTrace).1 = 200) := by
  refine ⟨?_, fun _ => rfl, fun _ => rfl, fun _ => rfl, fun _ => rfl,
    fun _ _ => rfl, ?_, ?_⟩
  · intro env cid h
    simp [webhook, replyAndStatus, send_message, emptyTrace, h, flaskStatus]
  · intro env cid t h
    simp [callback, send_message, emptyTrace, h, flaskStatus]
  · intro env cid m p1 hours hm hget hparse hroute
    have hok := scheduleMessage_ok env m cid emptyTrace p1 hours hget hparse
      hroute
    have hs : scheduleMessage env m cid emptyTrace =
        (.ok true, (scheduleMessage env m cid emptyTrace).2) := by
      rw [← hok]
    rw [webhook_schedule_ok env cid m emptyTrace true _ hm hs]
    rfl

/-- Witness for C4 (amended): a failed `/start` reply gives 500, a failed
callback send gives 500, and a schedule dispatch whose sends all fail
still gives 200. -/
theorem C4_transport_amended_witness :
    flaskStatus (webhook envFailSend (.msg 42 startCmdText) emptyTrace).1 =
      500 ∧
    flaskStatus (callback envFailSend (.payload 42 ("reminder".data))
        emptyTrace).1 = 500 ∧
    flaskStatus (webhook envFailSend
        (.msg 42 ("/schedule Buy milk, 3, hour".data)) emptyTrace).1 = 200 :=
  ⟨C4_transport_amended.1 envFailSend 42 rfl,
   C4_transport_amended.2.2.2.2.2.2.1 envFailSend 42 ("reminder".data) rfl,
   C4_transport_amended.2.2.2.2.2.2.2 envFailSend 42
      ("/schedule Buy milk, 3, hour".data) (" 3".data) 3
      (by decide) (by decide) (by decide) (by decide)⟩

/-- C5: a schedule command whose parsed durationUnits lies outside the
valid range of a five-entry table issues no delegation call and sends
exactly one range-error chat message to the originating chat. -/
theorem C5_out_of_range (env : Env) (cid : Int) (m p1 : List Char)
    (hours : Int)
    (_hm : startsWithTok scheduleTok m = true)
    (_hlen : (splitComma env.schedulerUrl).length = 5)
    (hget : (splitComma m)[1]? = some p1)
    (hparse : parseInt (strip p1) = some hours)
    (hout : ¬(1 ≤ hours ∧ hours ≤ 5)) :
    scheduleMessage env m cid emptyTrace =
      (.ok true, ⟨[(cid, rangeMessage)], []⟩) := by
  have hroute : resolveRoute hours (splitComma env.schedulerUrl) =
      .outOfRange := by
    simp only [resolveRoute]
    rw [if_neg hout]
  simp [scheduleMessage, hget, hparse, hroute, send_message, emptyTrace]

/-- Witness for C5 at durationUnits 0. -/
theorem C5_out_of_range_witness :
    scheduleMessage envA ("/schedule Drink water, 0, hour".data) 42
        emptyTrace = (.ok true, ⟨[(42, rangeMessage)], []⟩) :=
  C5_out_of_range envA 42 ("/schedule Drink water, 0, hour".data)
    (" 0".data) 0 (by decide) (by decide) (by decide) (by decide) (by decide)

/-- C6 (counterexample): `"/scheduleX foo, 3, hour"` is a schedule command
(its first nine characters are the `/schedule` token), but
`command[10:]` (line 82) drops ten characters — the token plus whichever
character follows — so the extracted task text is `"foo"` while the
spec's rule (strip the token, then leading whitespace) gives `"X foo"`;
the delegation payload carries `" foo"`. -/
theorem C6_counterexample :
    startsWithTok scheduleTok ("/scheduleX foo, 3, hour".data) = true ∧
    strip (((splitComma ("/scheduleX foo, 3, hour".data)).headD
        []).drop 10) = "foo".data ∧
    specTaskText ((splitComma ("/scheduleX foo, 3, hour".data)).headD []) =
      "X foo".data ∧
    ("foo".data : List Char) ≠ "X foo".data ∧
    (scheduleMessage envA ("/scheduleX foo, 3, hour".data) 42
        emptyTrace).2.posts = [("c".data, 42, " foo".data)] := by
  decide

/-- C6 (amended): the code extracts the task text as the first field with
its first ten characters removed; for every command whose token is
followed by a space this agrees (after trimming) with the spec's rule of
stripping the token and leading whitespace, and the spec's example
`"/schedule Buy milk, 3, hour"` is acknowledged with task text
`"Buy milk"` and duration 3. -/
theorem C6_tasktext_amended :
    (∀ rest : List Char,
      strip (("/schedule ".data ++ rest).drop 10) =
        specTaskText ("/schedule ".data ++ rest)) ∧
    (scheduleMessage envA ("/schedule Buy milk, 3, hour".data) 42
        emptyTrace).2.sends = [(42, ackMessage 3 ("Buy milk".data))] := by
  constructor
  · intro rest
    have h10 : ("/schedule ".data ++ rest).drop 10 = rest := rfl
    have h9 : ("/schedule ".data ++ rest).drop 9 = ' ' :: rest := rfl
    rw [h10]
    simp only [specTaskText, h9]
    have hsp : isWS ' ' = true := by decide
    have hdw : List.dropWhile isWS (' ' :: rest) =
        List.dropWhile isWS rest := by
      simp [List.dropWhile_cons, hsp]
    rw [hdw, strip_dropWhile]
  · decide

/-- Witness for C6 (amended) at a concrete tail. -/
theorem C6_tasktext_amended_witness :
    strip (("/schedule ".data ++ "  Buy milk".data).drop 10) =
      specTaskText ("/schedule ".data ++ "  Buy milk".data) :=
  C6_tasktext_amended.1 ("  Buy milk".data)

/-- C7: on a valid schedule request whose delegation call succeeds, the
dispatcher sends exactly one acknowledgment to the originating chat, and
that message contains the trimmed task text and the scheduled duration
as contiguous substrings. -/
theorem C7_ack (env : Env) (cid : Int) (m p1 url : List Char) (hours : Int)
    (_hm : startsWithTok scheduleTok m = true)
    (hget : (splitComma m)[1]? = some p1)
    (hparse : parseInt (strip p1) = some hours)
    (hroute : resolveRoute hours (splitComma env.schedulerUrl) = .target url)
    (hpost : env.postOk 0 = true) :
    (scheduleMessage env m cid emptyTrace).2.sends =
      [(cid, ackMessage hours (((splitComma m).headD []).drop 10))] ∧
    containsSub (strip (((splitComma m).headD []).drop 10))
      (ackMessage hours (((splitComma m).headD []).drop 10)) ∧
    containsSub ((toString hours).data)
      (ackMessage hours (((splitComma m).headD []).drop 10)) := by
  refine ⟨?_, ?_, ?_⟩
  · simp [scheduleMessage, hget, hparse, hroute, postScheduler, send_message,
      emptyTrace, hpost]
  · exact ⟨("✅ Your message has been scheduled and will be delivered in ").data
        ++ (toString hours).data ++ (" hour(s)! ⏰\n\n📨 Message: \"").data,
      ("\"\n\nThank you for using the scheduler bot!").data,
      by simp [ackMessage, List.append_assoc]⟩
  · exact ⟨("✅ Your message has been scheduled and will be delivered in ").data,
      (" hour(s)! ⏰\n\n📨 Message: \"").data ++
        strip (((splitComma m).headD []).drop 10) ++
        ("\"\n\nThank you for using the scheduler bot!").data,
      by simp [ackMessage, List.append_assoc]⟩

/-- Witness for C7 at the spec's example command. -/
theorem C7_ack_witness :
    (scheduleMessage envA ("/schedule Buy milk, 3, hour".data) 42
        emptyTrace).2.sends =
      [(42, ackMessage 3
        (((splitComma ("/schedule Buy milk, 3, hour".data)).headD
          []).drop 10))] :=
  (C7_ack envA 42 ("/schedule Buy milk, 3, hour".data) (" 3".data)
      ("c".data) 3 (by decide) (by decide) (by decide) (by decide)
      (by decide)).1

/-- C8: on a callback payload carrying both chat_id and text, the handler
calls the send capability exactly once with exactly those arguments, and
the transport response reports the send outcome (200 on success, a
failure response otherwise). -/
theorem C8_callback_relay (env : Env) (cid : Int) (text : List Char) :
    callback env (.payload cid text) emptyTrace =
      ((if env.sendOk 0 = true then Except.ok (some Resp.s200)
          else Except.ok none),
       ⟨[(cid, text)], []⟩) ∧
    (flaskStatus (callback env (.payload cid text) emptyTrace).1 = 200 ↔
      env.sendOk 0 = true) := by
  cases h : env.sendOk 0 <;>
    simp [callback, send_message, emptyTrace, h, flaskStatus]

/-- Witness for C8 at the spec's example payload. -/
theorem C8_callback_relay_witness :
    callback envA (.payload 42 ("reminder!".data)) emptyTrace =
      (Except.ok (some Resp.s200), ⟨[(42, ("reminder!".data))], []⟩) := by
  rw [(C8_callback_relay envA 42 ("reminder!".data)).1]
  rfl

/-- C9: the unit field is display-only — two schedule commands that agree
on the first two comma-separated fields and differ only after the second
comma produce identical dispatcher outcomes: the same route target, the
same delegation payload, and the same chat messages. -/
theorem C9_unit_display_only (env : Env) (cid : Int) (tr : Trace)
    (p0 p1 r1 r2 : List Char) (h0 : ',' ∉ p0) (h1 : ',' ∉ p1) :
    scheduleMessage env (p0 ++ ',' :: (p1 ++ ',' :: r1)) cid tr =
      scheduleMessage env (p0 ++ ',' :: (p1 ++ ',' :: r2)) cid tr := by
  have e1 : splitComma (p0 ++ ',' :: (p1 ++ ',' :: r1)) =
      p0 :: p1 :: splitComma r1 := by
    rw [splitComma_append _ h0, splitComma_append _ h1]
  have e2 : splitComma (p0 ++ ',' :: (p1 ++ ',' :: r2)) =
      p0 :: p1 :: splitComma r2 := by
    rw [splitComma_append _ h0, splitComma_append _ h1]
  simp [scheduleMessage, e1, e2]

/-- Witness for C9: hour vs minute unit words. -/
theorem C9_unit_display_only_witness :
    scheduleMessage envA
        ("/schedule Buy milk".data ++ ',' :: (" 3".data ++ ',' :: " hour".data))
        42 emptyTrace =
      scheduleMessage envA
        ("/schedule Buy milk".data ++
          ',' :: (" 3".data ++ ',' :: " minute".data)) 42 emptyTrace :=
  C9_unit_display_only envA 42 emptyTrace ("/schedule Buy milk".data)
    (" 3".data) (" hour".data) (" minute".data) (by decide) (by decide)

/-- C10: a callback whose JSON body lacks chat_id or text sends no chat
message at all and yields a transport-level failure: the `KeyError` is
caught, but the except branch references the then-unbound `chat_id` and
raises `NameError` before its `send_message` can run. -/
theorem C10_callback_missing (env : Env) (t : List Char) :
    callback env .noTextField emptyTrace = (.error .nameError, emptyTrace) ∧
    callback env (.noChatId t) emptyTrace = (.error .nameError, emptyTrace) ∧
    (callback env .noTextField emptyTrace).2.sends = [] ∧
    (callback env (.noChatId t) emptyTrace).2.sends = [] ∧
    flaskStatus (callback env .noTextField emptyTrace).1 = 500 ∧
    flaskStatus (callback env (.noChatId t) emptyTrace).1 = 500 :=
  ⟨rfl, rfl, rfl, rfl, rfl, rfl⟩

/-- Witness for C10 at a concrete payload text. -/
theorem C10_callback_missing_witness :
    callback envA (.noChatId ("reminder with no chat".data)) emptyTrace =
      (.error .nameError, emptyTrace) :=
  (C10_callback_missing envA ("reminder with no chat".data)).2.1

end SchedulerBot
